import Mathlib

/-!
# Verification of the Amazon Icy Tower core (src/amazon_icy_tower.py)

Shallow embedding of the player-update / collision / combo / camera logic of
`amazon_icy_tower.py`.  Conventions:

* Python floats are modeled as exact rationals (`ℚ`); the claims verified here
  are structural (ordering, clamping, bookkeeping, monotonicity) and do not
  hinge on binary floating-point rounding.
* All platform fields are integers in the source (`generate_tower` builds them
  with `int(...)` or integer constants), so `Platform` carries `Int` fields.
* `pygame.Rect` truncates float coordinates toward zero; `colliderect` is the
  strict-overlap test on the resulting integer rectangles.
* The pygame key snapshot is abstracted to three logical flags
  (left/a, right/d, space), exactly the combinations the update reads.
* The particle system is fire-and-forget cosmetics (sparks) and the
  `current_floor` argument of `Player.update` is never read in its body, so
  neither appears in the embedding.
* Python's `list.sort` is a stable sort by the given key; `List.insertionSort`
  with a non-strict relation computes the identical result, including the
  order of equal keys (`reverse=True` corresponds to the flipped non-strict
  relation).
-/

/-! ## Game constants (lines 29-43 of the source) -/

def GRAVITY : ℚ := 3/10
def JUMP_STRENGTH : ℚ := -8
def MAX_SPEED : ℚ := 10
def ACCELERATION : ℚ := 2/5
def FRICTION : ℚ := 17/20
def WALL_BOUNCE_FACTOR : ℚ := 9/10
def CAMERA_SMOOTH : ℚ := 3/20
def COMBO_MIN_FLOORS : Int := 2
def WINDOW_WIDTH : ℚ := 800
def WINDOW_HEIGHT : ℚ := 600

/-- Player bounding-box width (`self.width = 30` in `Player.__init__`). -/
def PLAYER_WIDTH : ℚ := 30

/-- Player bounding-box height (`self.height = 45` in `Player.__init__`). -/
def PLAYER_HEIGHT : ℚ := 45

/-- `self.combo_max_time = 180` in `Player.__init__`. -/
def COMBO_MAX_TIME : Int := 180

/-- Python `abs` on a float (floats modeled as exact rationals). -/
def pyAbs (q : ℚ) : ℚ := if q < 0 then -q else q

/-- Python `max` on two floats: returns the first argument on ties. -/
def pyMax (a b : ℚ) : ℚ := if a < b then b else a

/-- Python `min` on two floats: returns the first argument on ties. -/
def pyMin (a b : ℚ) : ℚ := if b < a then b else a

/-- pygame's conversion of a float coordinate to an integer rect coordinate:
truncation toward zero (C cast). -/
def pyTrunc (q : ℚ) : Int := if q < 0 then ⌈q⌉ else ⌊q⌋

/-! ## Data model -/

/-- One platform dictionary as produced by `generate_tower` (the cosmetic
`type` and `checkpoint` entries are never read by `Player.update` and are
omitted).  All numeric entries are Python ints. -/
structure Platform where
  x : Int
  y : Int
  width : Int
  height : Int
  floor : Int
  deriving Repr, DecidableEq

/-- Integer rectangle as stored by `pygame.Rect`. -/
structure PyRect where
  x : Int
  y : Int
  w : Int
  h : Int
  deriving Repr, DecidableEq

/-- `pygame.Rect.colliderect`: strict overlap on both axes. -/
def PyRect.colliderect (a b : PyRect) : Prop :=
  a.x < b.x + b.w ∧ a.y < b.y + b.h ∧ b.x < a.x + a.w ∧ b.y < a.y + a.h

instance (a b : PyRect) : Decidable (a.colliderect b) := by
  unfold PyRect.colliderect; infer_instance

/-- The rect of a platform (`pygame.Rect(platform['x'], platform['y'],
platform['width'], platform['height'])`). -/
def Platform.rect (pf : Platform) : PyRect := ⟨pf.x, pf.y, pf.width, pf.height⟩

/-- The mutable state of the `Player` object that `Player.update` reads or
writes (the `color` field is cosmetic and constant). -/
structure Player where
  x : ℚ
  y : ℚ
  vel_x : ℚ
  vel_y : ℚ
  on_ground : Bool
  rotation : ℚ
  rotation_speed : ℚ
  combo_active : Bool
  combo_floors : Int
  combo_timer : Int
  total_combo_floors : Int
  last_floor : Int
  highest_floor : Int
  score : Int
  deriving Repr, DecidableEq

/-- The logical key snapshot `Player.update` reads: `left` is
`K_LEFT or K_a`, `right` is `K_RIGHT or K_d`, `jump` is `K_SPACE`. -/
structure Input where
  left : Bool
  right : Bool
  jump : Bool
  deriving Repr, DecidableEq

/-! ## Combo bookkeeping -/

/-- `Player.end_combo` (lines 598-607): award `total_combo_floors^2 * 10`
when a combo with positive floor count is active, then clear every combo
field. -/
def Player.end_combo (p : Player) : Player :=
  let p1 :=
    if p.combo_active ∧ 0 < p.total_combo_floors then
      { p with score := p.score + p.total_combo_floors * p.total_combo_floors * 10 }
    else p
  { p1 with combo_active := false, combo_floors := 0, total_combo_floors := 0,
            combo_timer := 0 }

/-- The landing bookkeeping block that the source repeats verbatim at its four
landing sites (lines 274-307, 356-385, 434-474 and 528-558): highest-floor
record bonus, combo start/continue/end on the jump delta, per-jump bonuses,
and the `last_floor` update.  (The spark emission in two of the four copies is
cosmetic.) -/
def Player.processLanding (p : Player) (landed_floor : Int) : Player :=
  let p1 :=
    if landed_floor > p.highest_floor then
      let p' := { p with highest_floor := landed_floor }
      if landed_floor > 0 then { p' with score := p'.score + 10 } else p'
    else p
  let floors_jumped := landed_floor - p1.last_floor
  let p2 :=
    if floors_jumped ≥ COMBO_MIN_FLOORS then
      let pa :=
        if ¬ p1.combo_active then
          { p1 with combo_active := true, total_combo_floors := floors_jumped }
        else
          { p1 with total_combo_floors := p1.total_combo_floors + floors_jumped }
      let pb := { pa with combo_timer := COMBO_MAX_TIME, combo_floors := floors_jumped }
      if floors_jumped = 2 then { pb with score := pb.score + 20 }
      else if floors_jumped = 3 then { pb with score := pb.score + 50 }
      else if floors_jumped ≥ 4 then { pb with score := pb.score + floors_jumped * 25 }
      else pb
    else
      if p1.combo_active then p1.end_combo else p1
  { p2 with last_floor := landed_floor }

/-- The combo-timer countdown at the end of `Player.update` (lines 592-596). -/
def Player.comboTimerStep (p : Player) : Player :=
  if p.combo_active then
    let p1 := { p with combo_timer := p.combo_timer - 1 }
    if p1.combo_timer ≤ 0 then p1.end_combo else p1
  else p

/-! ## Physics (lines 178-238) -/

/-- Wall bouncing (lines 223-235): the body's box must stay between the left
wall boundary `100` and the right wall boundary `WINDOW_WIDTH - 100 = 700`;
crossing clamps the position exactly to the boundary and, when still moving
outward, reflects `vel_x` with factor `0.9`. -/
def wallClamp (x vx : ℚ) : ℚ × ℚ :=
  if x < 100 then
    (100, if vx < 0 then -vx * WALL_BOUNCE_FACTOR else vx)
  else if x + PLAYER_WIDTH > WINDOW_WIDTH - 100 then
    (WINDOW_WIDTH - 100 - PLAYER_WIDTH, if vx > 0 then -vx * WALL_BOUNCE_FACTOR else vx)
  else (x, vx)

/-- Lines 178-238 of `Player.update`: horizontal acceleration/friction and
speed clamp, the ground jump with speed-scaled boost and spin eligibility,
gravity, the cosmetic rotation update, position integration, wall bouncing,
and the `on_ground = False` reset that precedes collision detection. -/
def physicsStep (p : Player) (inp : Input) : Player :=
  let vx1 := if inp.left then p.vel_x - ACCELERATION else p.vel_x
  let vx2 := if inp.right then vx1 + ACCELERATION else vx1
  let vx3 := if ¬ inp.left ∧ ¬ inp.right then vx2 * FRICTION else vx2
  let vx4 := pyMax (-MAX_SPEED) (pyMin MAX_SPEED vx3)
  let jumped := inp.jump ∧ p.on_ground
  let speed_factor := pyAbs vx4 / MAX_SPEED
  let vy1 := if jumped then JUMP_STRENGTH - speed_factor * 1 else p.vel_y
  let og1 : Bool := if jumped then false else p.on_ground
  let rs1 := if jumped ∧ (p.combo_active ∨ speed_factor > 1/2)
             then pyAbs vx4 * (3/2) else p.rotation_speed
  let spinning := ¬ og1 ∧ (p.combo_active ∨ pyAbs vx4 > 6)
  let rot2 := if spinning
              then (if p.rotation + rs1 ≥ 360 then p.rotation + rs1 - 360
                    else p.rotation + rs1)
              else 0
  let rs2 := if spinning then rs1 else 0
  let vy2 := vy1 + GRAVITY
  let x1 := p.x + vx4
  let y1 := p.y + vy2
  let w := wallClamp x1 vx4
  { p with x := w.1, y := y1, vel_x := w.2, vel_y := vy2,
           on_ground := false, rotation := rot2, rotation_speed := rs2 }

/-! ## Collision rules -/

/-- Rule A, the ground-support pre-check (lines 241-313, entered only when
`vel_y >= 0`): scan the platforms in list order for one whose top lies in the
`[0,10]` band below the body's feet with at least half-width support.
`some (p', f)` is the snap landing (the source `return`s); `none` covers both
the `break` when the supporting platform is farther than the 5-unit snap
distance and the scan running out of platforms (the post-loop
`on_ground = False` re-assignment is a no-op: `on_ground` is already false). -/
def groundSupportScan (p : Player) : List Platform → Option (Player × Int)
  | [] => none
  | pf :: rest =>
    if (pf.y : ℚ) ≥ p.y + PLAYER_HEIGHT ∧ (pf.y : ℚ) ≤ p.y + PLAYER_HEIGHT + 10 then
      let support_left := pyMax p.x (pf.x : ℚ)
      let support_right := pyMin (p.x + PLAYER_WIDTH) ((pf.x : ℚ) + (pf.width : ℚ))
      let support_width := pyMax 0 (support_right - support_left)
      if support_width ≥ PLAYER_WIDTH * (1/2) then
        if pyAbs ((pf.y : ℚ) - (p.y + PLAYER_HEIGHT)) ≤ 5 then
          let p1 := { p with y := (pf.y : ℚ) - PLAYER_HEIGHT, vel_y := 0, on_ground := true }
          some (p1.processLanding pf.floor, pf.floor)
        else none
      else groundSupportScan p rest
    else groundSupportScan p rest

/-- Rule B, the stunt-jump grab (lines 315-386, entered only when `vel_y < 0`
and `|vel_x| > 4`): a speed-scaled reach window above the body; a platform
inside it with a speed-scaled horizontal center tolerance is grabbed, with an
optional nudge toward the platform when the body's center overhangs by more
than half the platform width.  `some` is the grab (the source `return`s). -/
def grabScan (p : Player) : List Platform → Option (Player × Int)
  | [] => none
  | pf :: rest =>
    let speed_factor := pyAbs p.vel_x / MAX_SPEED
    let enhanced_grab_distance := 35 + speed_factor * 15
    let grab_rect : PyRect :=
      ⟨pyTrunc (p.x - 10), pyTrunc (p.y - enhanced_grab_distance),
       pyTrunc (PLAYER_WIDTH + 20), pyTrunc enhanced_grab_distance⟩
    if grab_rect.colliderect pf.rect ∧ (pf.y : ℚ) < p.y ∧
        (pf.y : ℚ) > p.y - enhanced_grab_distance then
      let player_center_x := p.x + ((Int.fdiv 30 2 : Int) : ℚ)
      let horizontal_tolerance := 15 + speed_factor * 10
      if player_center_x ≥ (pf.x : ℚ) - horizontal_tolerance ∧
          player_center_x ≤ (pf.x : ℚ) + (pf.width : ℚ) + horizontal_tolerance then
        let p1 := { p with y := (pf.y : ℚ) - PLAYER_HEIGHT, vel_y := 0, on_ground := true }
        let platform_center := (pf.x : ℚ) + ((Int.fdiv pf.width 2 : Int) : ℚ)
        let p2 :=
          if pyAbs (player_center_x - platform_center) > ((Int.fdiv pf.width 2 : Int) : ℚ) then
            if player_center_x < platform_center then
              { p1 with x := pyMax ((pf.x : ℚ) - 5) p1.x }
            else
              { p1 with x := pyMin ((pf.x : ℚ) + (pf.width : ℚ) - PLAYER_WIDTH + 5) p1.x }
          else p1
        some (p2.processLanding pf.floor, pf.floor)
      else grabScan p rest
    else grabScan p rest

/-- Rule C's per-candidate loop (lines 401-590) over the sorted colliding
platforms: top landing with half-width support, bottom bump with the
speed-scaled top-landing leniency, and the restrictive side bounce; each
firing outcome `break`s the scan.  The second component is the list of
landing events emitted (the landed floor). -/
def collisionScan (p : Player) : List Platform → Player × List Int
  | [] => (p, [])
  | pf :: rest =>
    let overlap_top := p.y + PLAYER_HEIGHT - (pf.y : ℚ)
    let overlap_bottom := (pf.y : ℚ) + (pf.height : ℚ) - p.y
    let overlap_left := p.x + PLAYER_WIDTH - (pf.x : ℚ)
    let overlap_right := (pf.x : ℚ) + (pf.width : ℚ) - p.x
    if p.vel_y ≥ 0 ∧ overlap_top > 0 ∧ overlap_top < PLAYER_HEIGHT * (4/5) then
      let support_left := pyMax p.x (pf.x : ℚ)
      let support_right := pyMin (p.x + PLAYER_WIDTH) ((pf.x : ℚ) + (pf.width : ℚ))
      let support_width := pyMax 0 (support_right - support_left)
      if support_width ≥ PLAYER_WIDTH * (1/2) then
        let p1 := { p with y := (pf.y : ℚ) - PLAYER_HEIGHT, vel_y := 0, on_ground := true }
        (p1.processLanding pf.floor, [pf.floor])
      else
        collisionScan p rest
    else if p.vel_y ≤ 0 ∧ overlap_bottom > 0 ∧ overlap_bottom < PLAYER_HEIGHT * (4/5) then
      let horizontal_overlap_left := pyMax p.x (pf.x : ℚ)
      let horizontal_overlap_right := pyMin (p.x + PLAYER_WIDTH) ((pf.x : ℚ) + (pf.width : ℚ))
      let horizontal_overlap_width := pyMax 0 (horizontal_overlap_right - horizontal_overlap_left)
      if horizontal_overlap_width ≥ PLAYER_WIDTH * (3/10) then
        let base_threshold : ℚ := 35
        let speed_factor := pyAbs p.vel_x / MAX_SPEED
        let landing_threshold :=
          if speed_factor > 3/5 then base_threshold + speed_factor * 25
          else if pyAbs p.vel_x < 2 then base_threshold + 15
          else base_threshold
        if pyAbs (p.y - (pf.y : ℚ)) < landing_threshold then
          let support_left := pyMax p.x (pf.x : ℚ)
          let support_right := pyMin (p.x + PLAYER_WIDTH) ((pf.x : ℚ) + (pf.width : ℚ))
          let support_width := pyMax 0 (support_right - support_left)
          if support_width ≥ PLAYER_WIDTH * (1/2) then
            let p1 := { p with y := (pf.y : ℚ) - PLAYER_HEIGHT, vel_y := 0, on_ground := true }
            (p1.processLanding pf.floor, [pf.floor])
          else
            ({ p with y := (pf.y : ℚ) + (pf.height : ℚ), vel_y := 0 }, [])
        else
          ({ p with y := (pf.y : ℚ) + (pf.height : ℚ), vel_y := 0 }, [])
      else
        collisionScan p rest
    else if pyAbs p.vel_x > 1/10 then
      let vertical_overlap := pyMin overlap_top overlap_bottom
      let horizontal_overlap := pyMin overlap_left overlap_right
      if horizontal_overlap < 8 ∧ vertical_overlap > 10 ∧ pyAbs p.vel_x > 2 then
        if overlap_left < overlap_right then
          ({ p with x := (pf.x : ℚ) - PLAYER_WIDTH, vel_x := -(pyAbs p.vel_x) * (7/10) }, [])
        else
          ({ p with x := (pf.x : ℚ) + (pf.width : ℚ), vel_x := pyAbs p.vel_x * (7/10) }, [])
      else
        collisionScan p rest
    else
      collisionScan p rest

/-- The platforms whose rect intersects the player's rect (lines 388-393). -/
def collidingPlatforms (p : Player) (platforms : List Platform) : List Platform :=
  let player_rect : PyRect := ⟨pyTrunc p.x, pyTrunc p.y, 30, 45⟩
  platforms.filter (fun pf => decide (player_rect.colliderect pf.rect))

/-- The explicit candidate ordering of Rule C (lines 395-399):
`colliding_platforms.sort(key=..y, reverse=True)` when `vel_y < 0`, else
`colliding_platforms.sort(key=..y)`.  Python's sort is stable, so the result
coincides with a stable insertion sort under the matching non-strict
relation: descending y when rising, ascending y otherwise. -/
def sortCandidates (vel_y : ℚ) (l : List Platform) : List Platform :=
  if vel_y < 0 then
    l.insertionSort (fun a b => b.y ≤ a.y)
  else
    l.insertionSort (fun a b => a.y ≤ b.y)

/-! ## The full per-tick player update -/

/-- One call of `Player.update(platforms, current_floor)` (lines 177-596).
`current_floor` is never read in the source body and the particle system only
emits cosmetic sparks, so neither is a parameter.  The second component is
the list of landing events (landed floors) emitted during this tick, in
order: Rule A and Rule B `return` immediately after their landing (skipping
the combo-timer countdown), while Rule C falls through to the countdown. -/
def Player.update (p : Player) (inp : Input) (platforms : List Platform) :
    Player × List Int :=
  let q := physicsStep p inp
  match (if q.vel_y ≥ 0 then groundSupportScan q platforms else none) with
  | some (q', f) => (q', [f])
  | none =>
    match (if q.vel_y < 0 ∧ pyAbs q.vel_x > 4 then grabScan q platforms else none) with
    | some (q', f) => (q', [f])
    | none =>
      let r := collisionScan q (sortCandidates q.vel_y (collidingPlatforms q platforms))
      (r.1.comboTimerStep, r.2)

/-! ## Camera and tower material -/

/-- The camera state read and written by `AmazonIcyTower.update_camera`. -/
structure Camera where
  camera_y : ℚ
  target_camera_y : ℚ
  scroll_speed : ℚ
  speedup_timer : Int
  deriving Repr, DecidableEq

/-- `AmazonIcyTower.update_camera` (lines 917-939): upward-only target
adoption, smoothing toward the target when it is above the camera, the
unconditional forced scroll `camera_y += scroll_speed`, and the periodic
scroll speedup. -/
def update_camera (g : Camera) (player_y : ℚ) : Camera :=
  let player_screen_y := player_y - g.camera_y
  let g1 : Camera :=
    if player_screen_y < WINDOW_HEIGHT * (2/5) then
      let new_target := player_y - WINDOW_HEIGHT * (2/5)
      if new_target < g.target_camera_y then { g with target_camera_y := new_target } else g
    else g
  let g2 : Camera :=
    if g1.target_camera_y < g1.camera_y then
      { g1 with camera_y := g1.camera_y + (g1.target_camera_y - g1.camera_y) * CAMERA_SMOOTH }
    else g1
  let g3 : Camera := { g2 with camera_y := g2.camera_y + g2.scroll_speed }
  let g4 : Camera := { g3 with speedup_timer := g3.speedup_timer - 1 }
  if g4.speedup_timer ≤ 0 then
    { g4 with scroll_speed := g4.scroll_speed + 1/20, speedup_timer := 1800 }
  else g4

/-- The eleven platform materials of `FLOOR_COLORS` / `get_floor_type`. -/
inductive FloorType
  | stone | ice | wood | metal | gum | bone | vines | pipe | cloud | rainbow | glass
  deriving Repr, DecidableEq

/-- The ten-entry decade table of `get_floor_type` (line 912). -/
def floorTypes : List FloorType :=
  [.stone, .ice, .wood, .metal, .gum, .bone, .vines, .pipe, .cloud, .rainbow]

/-- `AmazonIcyTower.get_floor_type` (lines 909-915); floor indices are the
natural numbers `range(1, 200)` plus the ground floor 0. -/
def get_floor_type (floor : ℕ) : FloorType :=
  if floor ≥ 100 then .glass
  else floorTypes.get ⟨floor / 10 % 10,
    Nat.lt_of_lt_of_le (Nat.mod_lt _ (by decide)) (by decide)⟩

theorem processLanding_combo_active (p : Player) (landed : Int) :
    (p.processLanding landed).combo_active = decide (2 ≤ landed - p.last_floor) := by
  simp only [Player.processLanding, Player.end_combo, COMBO_MIN_FLOORS, COMBO_MAX_TIME]
  split_ifs <;> try simp_all

theorem processLanding_combo_timer (p : Player) (landed : Int) :
    (p.processLanding landed).combo_timer =
      if 2 ≤ landed - p.last_floor then COMBO_MAX_TIME
      else if p.combo_active then 0 else p.combo_timer := by
  simp only [Player.processLanding, Player.end_combo, COMBO_MIN_FLOORS, COMBO_MAX_TIME]
  split_ifs <;> try simp_all

theorem processLanding_total (p : Player) (landed : Int) :
    (p.processLanding landed).total_combo_floors =
      if 2 ≤ landed - p.last_floor then
        (if p.combo_active then p.total_combo_floors + (landed - p.last_floor)
         else landed - p.last_floor)
      else if p.combo_active then 0 else p.total_combo_floors := by
  simp only [Player.processLanding, Player.end_combo, COMBO_MIN_FLOORS, COMBO_MAX_TIME]
  split_ifs <;> try simp_all

theorem processLanding_last_floor (p : Player) (landed : Int) :
    (p.processLanding landed).last_floor = landed := by
  simp only [Player.processLanding]

theorem processLanding_highest (p : Player) (landed : Int) :
    (p.processLanding landed).highest_floor =
      if landed > p.highest_floor then landed else p.highest_floor := by
  simp only [Player.processLanding, Player.end_combo, COMBO_MIN_FLOORS, COMBO_MAX_TIME]
  split_ifs <;> try simp_all

theorem processLanding_score_mono (p : Player) (landed : Int) :
    p.score ≤ (p.processLanding landed).score := by
  simp only [Player.processLanding, Player.end_combo, COMBO_MIN_FLOORS, COMBO_MAX_TIME]
  split_ifs <;> try simp_all
  all_goals nlinarith [mul_self_nonneg p.total_combo_floors]

-- ## Claim C4

/-- Claim C4: a landing with `floor - lastFloor == 1` never starts or
continues a combo (afterwards no combo is active), while a landing with
`floor - lastFloor >= 2` always starts a fresh combo or continues the active
one, resetting the combo timer. -/
theorem claimC4_combo_delta (p : Player) (landed : Int) :
    (landed - p.last_floor = 1 → (p.processLanding landed).combo_active = false) ∧
    (2 ≤ landed - p.last_floor →
      (p.processLanding landed).combo_active = true ∧
      (p.processLanding landed).total_combo_floors =
        (if p.combo_active then p.total_combo_floors + (landed - p.last_floor)
         else landed - p.last_floor) ∧
      (p.processLanding landed).combo_timer = COMBO_MAX_TIME) := by
  constructor
  · intro h1
    rw [processLanding_combo_active, h1]
    decide
  · intro h2
    refine ⟨?_, ?_, ?_⟩
    · rw [processLanding_combo_active]
      simpa using h2
    · rw [processLanding_total, if_pos h2]
    · rw [processLanding_combo_timer, if_pos h2]

def pC4 : Player :=
  { x := 0, y := 0, vel_x := 0, vel_y := 0, on_ground := true, rotation := 0,
    rotation_speed := 0, combo_active := false, combo_floors := 0, combo_timer := 0,
    total_combo_floors := 0, last_floor := 0, highest_floor := 0, score := 0 }

/-- Witness for C4: from `lastFloor = 0`, landing on floor 1 leaves no combo
active; landing on floor 2 starts a combo with `totalFloors = 2`. -/
theorem claimC4_witness :
    (pC4.processLanding 1).combo_active = false ∧
    ((pC4.processLanding 2).combo_active = true ∧
      (pC4.processLanding 2).total_combo_floors =
        (if pC4.combo_active then pC4.total_combo_floors + (2 - pC4.last_floor)
         else 2 - pC4.last_floor) ∧
      (pC4.processLanding 2).combo_timer = COMBO_MAX_TIME) :=
  ⟨(claimC4_combo_delta pC4 1).1 (by decide), (claimC4_combo_delta pC4 2).2 (by decide)⟩

-- ## Claim C5

/-- Claim C5: ending an active combo awards exactly
`totalFloors^2 * 10` points (so `totalFloors = 7` awards 490 and
`totalFloors = 0` awards nothing) and clears every combo field. -/
theorem claimC5_combo_payout (p : Player) (hA : p.combo_active = true)
    (h0 : 0 ≤ p.total_combo_floors) :
    (p.end_combo).score = p.score + p.total_combo_floors * p.total_combo_floors * 10 ∧
    (p.end_combo).combo_active = false ∧ (p.end_combo).combo_floors = 0 ∧
    (p.end_combo).total_combo_floors = 0 ∧ (p.end_combo).combo_timer = 0 := by
  unfold Player.end_combo
  by_cases h : 0 < p.total_combo_floors
  · simp [hA, h]
  · have h0' : p.total_combo_floors = 0 := le_antisymm (not_lt.mp h) h0
    simp [hA, h0']

def pC5 : Player :=
  { x := 0, y := 0, vel_x := 0, vel_y := 0, on_ground := false, rotation := 0,
    rotation_speed := 0, combo_active := true, combo_floors := 3, combo_timer := 120,
    total_combo_floors := 7, last_floor := 5, highest_floor := 5, score := 0 }

/-- Witness for C5: an active combo with `totalFloors = 7` pays exactly 490. -/
theorem claimC5_witness :
    ((Player.end_combo pC5).score
        = pC5.score + pC5.total_combo_floors * pC5.total_combo_floors * 10 ∧
      (Player.end_combo pC5).combo_active = false ∧
      (Player.end_combo pC5).combo_floors = 0 ∧
      (Player.end_combo pC5).total_combo_floors = 0 ∧
      (Player.end_combo pC5).combo_timer = 0) ∧
    (Player.end_combo pC5).score = 490 :=
  ⟨claimC5_combo_payout pC5 rfl (by decide), by decide⟩

-- ## Claim C10

/-- Claim C10: `end_combo` is idempotent — with no combo active and all combo
fields already clear it changes nothing (in particular the score), and
calling it twice equals calling it once, so the `totalFloors^2 * 10` award is
paid at most once per combo. -/
theorem claimC10_end_combo_idempotent (p : Player) :
    ((p.combo_active = false ∧ p.combo_floors = 0 ∧ p.total_combo_floors = 0 ∧
      p.combo_timer = 0) → p.end_combo = p) ∧
    (p.end_combo).end_combo = p.end_combo := by
  constructor
  · rintro ⟨h1, h2, h3, h4⟩
    cases p
    simp_all [Player.end_combo]
  · cases p
    simp [Player.end_combo]

def pC10 : Player :=
  { x := 400, y := 455, vel_x := 0, vel_y := 0, on_ground := true, rotation := 0,
    rotation_speed := 0, combo_active := false, combo_floors := 0, combo_timer := 0,
    total_combo_floors := 0, last_floor := 0, highest_floor := 0, score := 0 }

/-- Witness for C10 at the initial player state. -/
theorem claimC10_witness :
    Player.end_combo pC10 = pC10 ∧
    (Player.end_combo pC10).end_combo = Player.end_combo pC10 :=
  ⟨(claimC10_end_combo_idempotent pC10).1 ⟨rfl, rfl, rfl, rfl⟩,
   (claimC10_end_combo_idempotent pC10).2⟩

-- ## Claim C9

/-- Claim C9: the generated material is `glass` from floor 100 on, and below
that it is the decade entry of the ten-entry material table (for `f < 100`
the index `(f/10) mod 10` is just `f/10`). -/
theorem claimC9_floor_material (f : ℕ) :
    (100 ≤ f → get_floor_type f = FloorType.glass) ∧
    (∀ h : f < 100, get_floor_type f = floorTypes.get ⟨f / 10, by
      have hl : floorTypes.length = 10 := by decide
      omega⟩) := by
  constructor
  · intro h
    simp [get_floor_type, h]
  · intro h
    have h10 : f / 10 < 10 := by omega
    have hm : f / 10 % 10 = f / 10 := Nat.mod_eq_of_lt h10
    simp [get_floor_type, Nat.not_le.mpr h, hm]

/-- Witness for C9: floor 150 is glass; floor 42 is the decade-4 entry,
i.e. gum. -/
theorem claimC9_witness :
    get_floor_type 150 = FloorType.glass ∧
    get_floor_type 42 = floorTypes.get ⟨42 / 10, by decide⟩ ∧
    get_floor_type 42 = FloorType.gum :=
  ⟨(claimC9_floor_material 150).1 (by decide),
   (claimC9_floor_material 42).2 (by decide), by decide⟩

-- ## Claim C1

instance : IsTotal Platform (fun a b => a.y ≤ b.y) :=
  ⟨fun a b => Int.le_total a.y b.y⟩

instance : IsTotal Platform (fun a b => b.y ≤ a.y) :=
  ⟨fun a b => Int.le_total b.y a.y⟩

instance : IsTrans Platform (fun a b => a.y ≤ b.y) :=
  ⟨fun _ _ _ hab hbc => le_trans hab hbc⟩

instance : IsTrans Platform (fun a b => b.y ≤ a.y) :=
  ⟨fun _ _ _ hab hbc => le_trans hbc hab⟩

/-- Claim C1 (amended): when the body is rising (`vel_y < 0`) the Rule C
candidates are processed lowest platform first (y descending), and when
falling or stationary highest platform first (y ascending); in both cases
the processed list is a permutation of the colliding candidates. -/
theorem claimC1_sort_order (v : ℚ) (l : List Platform) :
    (v < 0 → (sortCandidates v l).Sorted (fun a b => b.y ≤ a.y) ∧
             (sortCandidates v l).Perm l) ∧
    (0 ≤ v → (sortCandidates v l).Sorted (fun a b => a.y ≤ b.y) ∧
             (sortCandidates v l).Perm l) := by
  constructor
  · intro hv
    unfold sortCandidates
    rw [if_pos hv]
    exact ⟨List.sorted_insertionSort _ _, List.perm_insertionSort _ _⟩
  · intro hv
    unfold sortCandidates
    rw [if_neg (not_lt.mpr hv)]
    exact ⟨List.sorted_insertionSort _ _, List.perm_insertionSort _ _⟩

def pfHigh : Platform := { x := 120, y := 100, width := 200, height := 30, floor := 5 }

def pfLow : Platform := { x := 120, y := 200, width := 200, height := 30, floor := 4 }

/-- Counterexample to C1 as stated: rising (`vel_y = -1 < 0`) with two
candidates, the code puts the LOWEST platform (largest y, `pfLow`) first,
not the highest (smallest y) as the claim says. -/
theorem claimC1_counterexample :
    (-1 : ℚ) < 0 ∧ pfHigh.y < pfLow.y ∧
    sortCandidates (-1) [pfHigh, pfLow] = [pfLow, pfHigh] := by
  refine ⟨by decide, by decide, ?_⟩
  simp [sortCandidates, List.insertionSort, List.orderedInsert, pfHigh, pfLow,
    show ((-1 : ℚ) < 0) from by decide]

/-- Witness for C1 (amended) at a concrete rising and a concrete falling
tick. -/
theorem claimC1_witness :
    ((-1 : ℚ) < 0 ∧
      (sortCandidates (-1) [pfHigh, pfLow]).Sorted (fun a b => b.y ≤ a.y) ∧
      (sortCandidates (-1) [pfHigh, pfLow]).Perm [pfHigh, pfLow]) ∧
    ((0 : ℚ) ≤ 1 ∧
      (sortCandidates 1 [pfHigh, pfLow]).Sorted (fun a b => a.y ≤ b.y) ∧
      (sortCandidates 1 [pfHigh, pfLow]).Perm [pfHigh, pfLow]) := by
  refine ⟨⟨by decide, ?_⟩, ⟨by decide, ?_⟩⟩
  · exact (claimC1_sort_order (-1) [pfHigh, pfLow]).1 (by decide)
  · exact (claimC1_sort_order 1 [pfHigh, pfLow]).2 (by decide)

/-! ## The combo-state invariant (claim C6) -/

/-- The spec's ComboState invariant: the combo is active exactly when the
timer is positive, and an active combo has a positive floor total. -/
def ComboInv (p : Player) : Prop :=
  (p.combo_active = true ↔ 0 < p.combo_timer) ∧
  (p.combo_active = true → 0 < p.total_combo_floors)

theorem comboInv_end_combo (p : Player) : ComboInv p.end_combo := by
  unfold ComboInv Player.end_combo
  split_ifs <;> simp

theorem comboInv_processLanding (p : Player) (f : Int) (h : ComboInv p) :
    ComboInv (p.processLanding f) := by
  obtain ⟨h1, h2⟩ := h
  unfold ComboInv
  rw [processLanding_combo_active, processLanding_combo_timer, processLanding_total]
  by_cases hf : 2 ≤ f - p.last_floor
  · refine ⟨by simp [hf, COMBO_MAX_TIME], ?_⟩
    intro _
    rw [if_pos hf]
    split_ifs with ha
    · have := h2 ha
      omega
    · omega
  · rw [if_neg hf, if_neg hf]
    by_cases ha : p.combo_active = true
    · simp [hf, ha]
    · have ha' : p.combo_active = false := by
        cases hb : p.combo_active
        · rfl
        · exact absurd hb ha
      have ht : ¬ 0 < p.combo_timer := fun hc => ha (h1.mpr hc)
      simp [hf, ha', ht]

theorem comboInv_timerStep (p : Player) (h : ComboInv p) : ComboInv p.comboTimerStep := by
  obtain ⟨h1, h2⟩ := h
  unfold Player.comboTimerStep
  split_ifs with ha
  · simp only []
    split_ifs with ht
    · exact comboInv_end_combo _
    · refine ⟨?_, fun _ => h2 ha⟩
      simp only [ha, true_iff]
      omega
  · exact ⟨h1, h2⟩

theorem comboInv_collisionScan (p : Player) (l : List Platform) (h : ComboInv p) :
    ComboInv (collisionScan p l).1 := by
  induction l with
  | nil => exact h
  | cons pf rest ih =>
    simp only [collisionScan]
    split_ifs <;>
      first
        | exact comboInv_processLanding _ _ h
        | exact h
        | exact ih

theorem comboInv_groundScan (p q : Player) (f : Int) (l : List Platform) (h : ComboInv p)
    (hs : groundSupportScan p l = some (q, f)) : ComboInv q := by
  induction l with
  | nil => simp [groundSupportScan] at hs
  | cons pf rest ih =>
    simp only [groundSupportScan] at hs
    split_ifs at hs <;>
      first
        | exact Option.noConfusion hs
        | (simp only [Option.some.injEq, Prod.mk.injEq] at hs
           obtain ⟨hq, _⟩ := hs
           exact hq ▸ comboInv_processLanding _ _ h)
        | exact ih hs

theorem comboInv_grabScan (p q : Player) (f : Int) (l : List Platform) (h : ComboInv p)
    (hs : grabScan p l = some (q, f)) : ComboInv q := by
  induction l with
  | nil => simp [grabScan] at hs
  | cons pf rest ih =>
    simp only [grabScan] at hs
    split_ifs at hs <;>
      first
        | exact Option.noConfusion hs
        | (simp only [Option.some.injEq, Prod.mk.injEq] at hs
           obtain ⟨hq, _⟩ := hs
           exact hq ▸ comboInv_processLanding _ _ h)
        | exact ih hs

/-- Case analysis on the control flow of `Player.update`: the tick ends by a
Rule A return, a Rule B return, or by falling through to Rule C followed by
the combo-timer countdown. -/
theorem update_cases (p : Player) (inp : Input) (platforms : List Platform)
    (C : Player × List Int → Prop)
    (hA : ∀ q' f, groundSupportScan (physicsStep p inp) platforms = some (q', f) →
      C (q', [f]))
    (hB : ∀ q' f, grabScan (physicsStep p inp) platforms = some (q', f) → C (q', [f]))
    (hC : C ((collisionScan (physicsStep p inp)
        (sortCandidates (physicsStep p inp).vel_y
          (collidingPlatforms (physicsStep p inp) platforms))).1.comboTimerStep,
      (collisionScan (physicsStep p inp)
        (sortCandidates (physicsStep p inp).vel_y
          (collidingPlatforms (physicsStep p inp) platforms))).2)) :
    C (p.update inp platforms) := by
  simp only [Player.update]
  by_cases hv : (physicsStep p inp).vel_y ≥ 0
  · rw [if_pos hv]
    cases hg : groundSupportScan (physicsStep p inp) platforms with
    | some qf =>
      obtain ⟨q', f⟩ := qf
      exact hA q' f hg
    | none =>
      by_cases hb : ((physicsStep p inp).vel_y < 0 ∧ pyAbs (physicsStep p inp).vel_x > 4)
      · rw [if_pos hb]
        cases hg2 : grabScan (physicsStep p inp) platforms with
        | some qf =>
          obtain ⟨q', f⟩ := qf
          exact hB q' f hg2
        | none => exact hC
      · rw [if_neg hb]
        exact hC
  · rw [if_neg hv]
    by_cases hb : ((physicsStep p inp).vel_y < 0 ∧ pyAbs (physicsStep p inp).vel_x > 4)
    · rw [if_pos hb]
      cases hg2 : grabScan (physicsStep p inp) platforms with
      | some qf =>
        obtain ⟨q', f⟩ := qf
        exact hB q' f hg2
      | none => exact hC
    · rw [if_neg hb]
      exact hC

/-- Claim C6: the ComboState invariant is preserved both by the combo-timer
countdown step and by a whole player-update tick. -/
theorem claimC6_combo_invariant (p : Player) (inp : Input) (platforms : List Platform)
    (h : ComboInv p) :
    ComboInv p.comboTimerStep ∧ ComboInv (p.update inp platforms).1 := by
  have hq : ComboInv (physicsStep p inp) := h
  refine ⟨comboInv_timerStep p h, ?_⟩
  refine update_cases p inp platforms (fun r => ComboInv r.1) ?_ ?_ ?_
  · intro q' f hg
    exact comboInv_groundScan _ _ _ _ hq hg
  · intro q' f hg
    exact comboInv_grabScan _ _ _ _ hq hg
  · exact comboInv_timerStep _ (comboInv_collisionScan _ _ hq)

def pC6 : Player :=
  { x := 400, y := 455, vel_x := 0, vel_y := 0, on_ground := true, rotation := 0,
    rotation_speed := 0, combo_active := false, combo_floors := 0, combo_timer := 0,
    total_combo_floors := 0, last_floor := 0, highest_floor := 0, score := 0 }

/-- Witness for C6 at the initial player state with no input and no
platforms. -/
theorem claimC6_witness :
    ComboInv pC6 ∧
    (ComboInv pC6.comboTimerStep ∧
      ComboInv (pC6.update ⟨false, false, false⟩ []).1) := by
  have hInv : ComboInv pC6 := by
    constructor <;> simp [pC6]
  exact ⟨hInv, claimC6_combo_invariant pC6 ⟨false, false, false⟩ [] hInv⟩

/-! ## Landing-event count (claim C3) -/

theorem collisionScan_events (p : Player) (l : List Platform) :
    (collisionScan p l).2.length ≤ 1 := by
  induction l with
  | nil => simp [collisionScan]
  | cons pf rest ih =>
    simp only [collisionScan]
    split_ifs <;> simp [ih]

/-- Claim C3: one tick of the player update emits at most one landing event
(Rule A, Rule B and every Rule C branch either emit exactly one and stop, or
emit none). -/
theorem claimC3_landing_exclusivity (p : Player) (inp : Input) (platforms : List Platform) :
    (p.update inp platforms).2.length ≤ 1 := by
  refine update_cases p inp platforms (fun r => r.2.length ≤ 1) ?_ ?_ ?_
  · intro q' f _
    simp
  · intro q' f _
    simp
  · exact collisionScan_events _ _

/-! ## Score and highest-floor monotonicity (claim C7) -/

theorem end_combo_mono (p : Player) :
    p.score ≤ p.end_combo.score ∧ p.highest_floor ≤ p.end_combo.highest_floor := by
  unfold Player.end_combo
  split_ifs with hc
  · constructor
    · show p.score ≤ p.score + p.total_combo_floors * p.total_combo_floors * 10
      nlinarith [mul_self_nonneg p.total_combo_floors]
    · exact le_refl _
  · exact ⟨le_refl _, le_refl _⟩

theorem comboTimerStep_mono (p : Player) :
    p.score ≤ p.comboTimerStep.score ∧
    p.highest_floor ≤ p.comboTimerStep.highest_floor := by
  unfold Player.comboTimerStep
  split_ifs with ha
  · simp only []
    split_ifs with ht
    · exact end_combo_mono _
    · exact ⟨le_refl _, le_refl _⟩
  · exact ⟨le_refl _, le_refl _⟩

theorem processLanding_mono (p : Player) (f : Int) :
    p.score ≤ (p.processLanding f).score ∧
    p.highest_floor ≤ (p.processLanding f).highest_floor := by
  refine ⟨processLanding_score_mono p f, ?_⟩
  rw [processLanding_highest]
  split_ifs <;> omega

theorem collisionScan_mono (p : Player) (l : List Platform) :
    p.score ≤ (collisionScan p l).1.score ∧
    p.highest_floor ≤ (collisionScan p l).1.highest_floor := by
  induction l with
  | nil => exact ⟨le_refl _, le_refl _⟩
  | cons pf rest ih =>
    simp only [collisionScan]
    split_ifs <;>
      first
        | exact processLanding_mono _ _
        | exact ⟨le_refl _, le_refl _⟩
        | exact ih

theorem groundScan_mono (p q : Player) (f : Int) (l : List Platform)
    (hs : groundSupportScan p l = some (q, f)) :
    p.score ≤ q.score ∧ p.highest_floor ≤ q.highest_floor := by
  induction l with
  | nil => exact Option.noConfusion hs
  | cons pf rest ih =>
    simp only [groundSupportScan] at hs
    split_ifs at hs <;>
      first
        | exact Option.noConfusion hs
        | (simp only [Option.some.injEq, Prod.mk.injEq] at hs
           obtain ⟨hq, _⟩ := hs
           exact hq ▸ processLanding_mono _ _)
        | exact ih hs

theorem grabScan_mono (p q : Player) (f : Int) (l : List Platform)
    (hs : grabScan p l = some (q, f)) :
    p.score ≤ q.score ∧ p.highest_floor ≤ q.highest_floor := by
  induction l with
  | nil => exact Option.noConfusion hs
  | cons pf rest ih =>
    simp only [grabScan] at hs
    split_ifs at hs <;>
      first
        | exact Option.noConfusion hs
        | (simp only [Option.some.injEq, Prod.mk.injEq] at hs
           obtain ⟨hq, _⟩ := hs
           exact hq ▸ processLanding_mono _ _)
        | exact ih hs

/-- Claim C7: a player-update tick never decreases the score or the highest
floor reached. -/
theorem claimC7_monotonicity (p : Player) (inp : Input) (platforms : List Platform) :
    p.score ≤ (p.update inp platforms).1.score ∧
    p.highest_floor ≤ (p.update inp platforms).1.highest_floor := by
  refine update_cases p inp platforms
    (fun r => p.score ≤ r.1.score ∧ p.highest_floor ≤ r.1.highest_floor) ?_ ?_ ?_
  · intro q' f hg
    exact groundScan_mono (physicsStep p inp) q' f platforms hg
  · intro q' f hg
    exact grabScan_mono (physicsStep p inp) q' f platforms hg
  · have h1 := collisionScan_mono (physicsStep p inp)
      (sortCandidates (physicsStep p inp).vel_y
        (collidingPlatforms (physicsStep p inp) platforms))
    have h2 := comboTimerStep_mono
      (collisionScan (physicsStep p inp)
        (sortCandidates (physicsStep p inp).vel_y
          (collidingPlatforms (physicsStep p inp) platforms))).1
    exact ⟨le_trans h1.1 h2.1, le_trans h1.2 h2.2⟩

/-! ## Camera (claim C8) -/

theorem update_camera_y (g : Camera) (py : ℚ) :
    (update_camera g py).camera_y =
      (let t := if py - g.camera_y < WINDOW_HEIGHT * (2/5) ∧
                   py - WINDOW_HEIGHT * (2/5) < g.target_camera_y
                then py - WINDOW_HEIGHT * (2/5) else g.target_camera_y
       (if t < g.camera_y then g.camera_y + (t - g.camera_y) * CAMERA_SMOOTH
        else g.camera_y) + g.scroll_speed) := by
  unfold update_camera
  simp only []
  split_ifs <;> simp_all

/-- Claim C8 (amended): the forced scroll adds `scroll_speed` to `camera_y`
unconditionally every tick, so `camera_y` grows by exactly `scroll_speed`
whenever the smoothed target is not above the camera; but `camera_y` is NOT
monotone — it never gains more than `scroll_speed` in a tick and decreases
whenever the smoothing pull toward a higher (smaller-y) target exceeds the
scroll. -/
theorem claimC8_camera_scroll (g : Camera) (py : ℚ) :
    (update_camera g py).camera_y ≤ g.camera_y + g.scroll_speed ∧
    (g.camera_y ≤ g.target_camera_y → g.camera_y + WINDOW_HEIGHT * (2/5) ≤ py →
      (update_camera g py).camera_y = g.camera_y + g.scroll_speed) := by
  rw [update_camera_y]
  simp only [CAMERA_SMOOTH]
  constructor
  · split_ifs with h1 h2 h3 <;> linarith
  · intro h1 h2
    have hc1 : ¬ (py - g.camera_y < WINDOW_HEIGHT * (2/5)) := by linarith
    have ht : (if py - g.camera_y < WINDOW_HEIGHT * (2/5) ∧
          py - WINDOW_HEIGHT * (2/5) < g.target_camera_y
        then py - WINDOW_HEIGHT * (2/5) else g.target_camera_y) = g.target_camera_y :=
      if_neg (fun hc => hc1 hc.1)
    rw [ht, if_neg (not_lt.mpr h1)]

def gC8 : Camera :=
  { camera_y := 0, target_camera_y := -1000, scroll_speed := 1/10, speedup_timer := 100 }

/-- Counterexample to C8 as stated: with the target 1000 units above the
camera (the player has climbed), one camera update moves `camera_y` from `0`
down to `-149.9`, i.e. the camera offset strictly DECREASES. -/
theorem claimC8_counterexample :
    (update_camera gC8 1000).camera_y = -1499/10 ∧
    (update_camera gC8 1000).camera_y < gC8.camera_y := by
  have h : (update_camera gC8 1000).camera_y = -1499/10 := by
    rw [update_camera_y]
    norm_num [gC8, WINDOW_HEIGHT, CAMERA_SMOOTH]
  refine ⟨h, ?_⟩
  rw [h]
  norm_num [gC8]

def gC8w : Camera :=
  { camera_y := 0, target_camera_y := 5, scroll_speed := 1/10, speedup_timer := 100 }

/-- Witness for C8 (amended) with the player low on the screen and the target
not above the camera: the camera moves by exactly the scroll speed. -/
theorem claimC8_witness :
    (update_camera gC8w 300).camera_y ≤ gC8w.camera_y + gC8w.scroll_speed ∧
    (gC8w.camera_y ≤ gC8w.target_camera_y ∧
      gC8w.camera_y + WINDOW_HEIGHT * (2/5) ≤ 300 ∧
      (update_camera gC8w 300).camera_y = gC8w.camera_y + gC8w.scroll_speed) := by
  have h1 : gC8w.camera_y ≤ gC8w.target_camera_y := by norm_num [gC8w]
  have h2 : gC8w.camera_y + WINDOW_HEIGHT * (2/5) ≤ 300 := by
    norm_num [gC8w, WINDOW_HEIGHT]
  exact ⟨(claimC8_camera_scroll gC8w 300).1,
    h1, h2, (claimC8_camera_scroll gC8w 300).2 h1 h2⟩

/-! ## Wall containment (claim C2) -/

/-- Claim C2 (amended): the wall-bounce step clamps the integrated x into
`[100, 670] = [leftBoundary, rightBoundary - width]` with `rightBoundary =
WINDOW_WIDTH - 100 = 700`; a tick that crosses a boundary is clamped exactly
to it, and `vel_x` is reflected with factor 0.9 exactly when it still points
outward. -/
theorem claimC2_wall_clamp (x vx : ℚ) :
    (100 ≤ (wallClamp x vx).1 ∧
      (wallClamp x vx).1 + PLAYER_WIDTH ≤ WINDOW_WIDTH - 100) ∧
    (x < 100 →
      (wallClamp x vx).1 = 100 ∧
      (vx < 0 → (wallClamp x vx).2 = -vx * WALL_BOUNCE_FACTOR) ∧
      (0 ≤ vx → (wallClamp x vx).2 = vx)) ∧
    (x + PLAYER_WIDTH > WINDOW_WIDTH - 100 →
      (wallClamp x vx).1 = WINDOW_WIDTH - 100 - PLAYER_WIDTH ∧
      (0 < vx → (wallClamp x vx).2 = -vx * WALL_BOUNCE_FACTOR) ∧
      (vx ≤ 0 → (wallClamp x vx).2 = vx)) := by
  unfold wallClamp
  by_cases h1 : x < 100
  · rw [if_pos h1]
    refine ⟨⟨le_refl _, by norm_num [PLAYER_WIDTH, WINDOW_WIDTH]⟩, ?_, ?_⟩
    · intro _
      refine ⟨rfl, fun hv => ?_, fun hv => ?_⟩
      · rw [if_pos hv]
      · rw [if_neg (not_lt.mpr hv)]
    · intro hx
      exfalso
      simp only [PLAYER_WIDTH, WINDOW_WIDTH] at hx
      linarith
  · rw [if_neg h1]
    by_cases h2 : x + PLAYER_WIDTH > WINDOW_WIDTH - 100
    · rw [if_pos h2]
      refine ⟨⟨by norm_num [PLAYER_WIDTH, WINDOW_WIDTH],
          by norm_num [PLAYER_WIDTH, WINDOW_WIDTH]⟩, ?_, ?_⟩
      · intro hx
        exact absurd hx h1
      · intro _
        refine ⟨rfl, fun hv => ?_, fun hv => ?_⟩
        · rw [if_pos hv]
        · rw [if_neg (not_lt.mpr hv)]
    · rw [if_neg h2]
      refine ⟨⟨not_lt.mp h1, not_lt.mp h2⟩, ?_, ?_⟩
      · intro hx
        exact absurd hx h1
      · intro hx
        exact absurd hx h2

/-- Witness for C2 (amended): a leftward crossing at `x = 50, vx = -2` clamps
to 100 and reflects to `1.8`; a rightward crossing at `x = 720, vx = 3`
clamps to 670 and reflects to `-2.7`. -/
theorem claimC2_witness :
    ((100 : ℚ) ≤ (wallClamp 50 (-2)).1 ∧
      (wallClamp 50 (-2)).1 + PLAYER_WIDTH ≤ WINDOW_WIDTH - 100 ∧
      (wallClamp 50 (-2)).1 = 100 ∧
      (wallClamp 50 (-2)).2 = -(-2) * WALL_BOUNCE_FACTOR) ∧
    ((wallClamp 720 3).1 = WINDOW_WIDTH - 100 - PLAYER_WIDTH ∧
      (wallClamp 720 3).2 = -3 * WALL_BOUNCE_FACTOR) := by
  have hL := claimC2_wall_clamp 50 (-2)
  have hR := claimC2_wall_clamp 720 3
  have hL2 := hL.2.1 (by norm_num)
  have hR2 := hR.2.2 (by norm_num [PLAYER_WIDTH, WINDOW_WIDTH])
  exact ⟨⟨hL.1.1, hL.1.2, hL2.1, hL2.2.1 (by norm_num)⟩,
    ⟨hR2.1, hR2.2.1 (by norm_num)⟩⟩

def inpC2 : Input := { left := true, right := true, jump := false }

def pC2 : Player :=
  { x := 96, y := 294, vel_x := 4, vel_y := 7/10, on_ground := false, rotation := 0,
    rotation_speed := 0, combo_active := false, combo_floors := 0, combo_timer := 0,
    total_combo_floors := 0, last_floor := 0, highest_floor := 0, score := 0 }

def pfC2 : Platform := { x := 125, y := 300, width := 60, height := 30, floor := 3 }

/-- Counterexample to C2 as stated: this tick integrates to `x = 100` (inside
the walls, no clamp), but Rule C's side-collision then pushes the body to
`x = platform.x - width = 95 < 100`, so at the END of the update the body is
outside `[leftBoundary, rightBoundary - width]` (and hence outside the
claimed interval `[100, 770]`). -/
theorem claimC2_counterexample :
    (pC2.update inpC2 [pfC2]).1.x = 95 ∧ ¬ (100 ≤ (pC2.update inpC2 [pfC2]).1.x) := by
  have h : (pC2.update inpC2 [pfC2]).1.x = 95 := by
    norm_num [Player.update, physicsStep, wallClamp, pyAbs, pyMax, pyMin, pyTrunc,
      groundSupportScan, grabScan, collisionScan, collidingPlatforms, sortCandidates,
      List.insertionSort, List.orderedInsert, PyRect.colliderect, Platform.rect,
      Player.comboTimerStep, Player.processLanding, Player.end_combo,
      pC2, inpC2, pfC2, GRAVITY, JUMP_STRENGTH, MAX_SPEED, ACCELERATION, FRICTION,
      WALL_BOUNCE_FACTOR, COMBO_MIN_FLOORS, WINDOW_WIDTH, WINDOW_HEIGHT,
      PLAYER_WIDTH, PLAYER_HEIGHT, COMBO_MAX_TIME]
  refine ⟨h, ?_⟩
  rw [h]
  norm_num
